import Mathlib

/-!
Verification of the hierarchical task-orchestration engine of the
geepers-skills repository against its natural-language specification.

The Python sources embedded here (shallowly, as pure Lean functions) are:

* `src/skills/geepers-mcp/src/core/orchestration/parallel_agent_execution.py`
  (`ParallelExecutor.execute_parallel`, `_execute_with_limit_and_timeout`,
  `_execute_retries`) — namespace `ParallelExec`;
* `src/skills/geepers-mcp/src/core/orchestration/hierarchical_agent_coordination.py`
  (`HierarchicalOrchestrator`, `BelterAgent`, `DrummerAgent`, `CaminaAgent`)
  — namespace `Hier`;
* `src/skills/mcp-orchestration/src/core/orchestration/phased_workflow_orchestrator.py`
  (overall-status computation in `BaseWorkflowOrchestrator.run`) — namespace `Phased`;
* `src/skills/geepers-mcp/src/core/orchestration/task_decomposition_pattern.py`
  (`TaskDecomposer`) — namespace `Decomp`;
* `src/skills/mcp-orchestration/src/core/orchestration/multi_agent_data_models.py`
  (`AgentResult.from_dict`) — namespace `Models`.

Asynchronous execution is embedded by giving every unit of work an explicit
outcome per attempt (completed value / timeout / raised exception), plus a
separate marker for an exception that escapes the per-item wrapper and is
captured by `asyncio.gather(..., return_exceptions=True)` (in the Python code
only `BaseException`-level events such as cancellation can reach that path,
but the code handles it explicitly, so the model represents it).  Wall-clock
durations, sleeps and the concurrency semaphore do not affect any value the
claims talk about and are not part of the value-level model.
-/

namespace GeepersSkills

-- ===========================================================================
-- parallel_agent_execution.py
-- ===========================================================================

namespace ParallelExec

/-- `ExecutionStatus` from parallel_agent_execution.py. -/
inductive ExecutionStatus where
  | pending
  | running
  | completed
  | failed
  | timeout
  | retrying
deriving DecidableEq, Repr

/-- `ExecutionResult` from parallel_agent_execution.py (the
`execution_time` float field is timing metadata that no claim mentions and
is omitted from the value model). -/
structure ExecutionResult (α : Type) where
  task_id : String
  status : ExecutionStatus
  result : Option α := none
  error : Option String := none
  retry_count : Nat := 0
deriving DecidableEq, Repr

/-- `ParallelExecutionConfig` from parallel_agent_execution.py.
`max_concurrent` bounds the semaphore and `retry_delay` is a sleep; neither
changes any recorded value, they are kept for completeness. -/
structure PEConfig where
  max_concurrent : Nat := 10
  timeout_seconds : Nat := 60
  enable_retries : Bool := true
  max_retries : Nat := 2
  retry_delay : Nat := 1
deriving DecidableEq, Repr

/-- Outcome of one invocation of a unit of work inside
`_execute_with_limit_and_timeout`: the awaited coroutine either returns a
value, exceeds the per-task timeout, or raises an exception (caught by the
wrapper's `except Exception`). -/
inductive AttemptOutcome (α : Type) where
  | completed (v : α)
  | timedOut
  | raised (e : String)
deriving DecidableEq, Repr

/-- A unit of work submitted to `execute_parallel`.  `attempt k` is the
outcome of its (k+1)-th invocation of `_execute_with_limit_and_timeout`
(`k = 0` is the first round, `k = n` the n-th retry).  `gatherException`
is `some e` when the first-round coroutine delivers an exception to
`asyncio.gather(..., return_exceptions=True)` instead of an
`ExecutionResult` (a `BaseException`-level event: the wrapper itself
catches `asyncio.TimeoutError` and `Exception`). -/
structure UnitOfWork (α : Type) where
  attempt : Nat → AttemptOutcome α
  gatherException : Option String := none

/-- `ParallelExecutor._execute_with_limit_and_timeout`: runs one attempt and
converts its outcome into an `ExecutionResult`; every internal failure is
caught and recorded, nothing is re-raised. -/
def executeWithLimitAndTimeout {α : Type} (cfg : PEConfig) (taskId : String)
    (o : AttemptOutcome α) : ExecutionResult α :=
  match o with
  | .completed v =>
      { task_id := taskId, status := .completed, result := some v }
  | .timedOut =>
      { task_id := taskId, status := .timeout,
        error := some ("Timeout after " ++ toString cfg.timeout_seconds ++ "s") }
  | .raised e =>
      { task_id := taskId, status := .failed, error := some e }

/-- What `asyncio.gather(..., return_exceptions=True)` hands back for one
submitted item: the wrapper's `ExecutionResult`, or a captured exception. -/
inductive GatherOutcome (α : Type) where
  | ok (r : ExecutionResult α)
  | exn (e : String)
deriving DecidableEq, Repr

/-- First round of `execute_parallel`: one `_execute_with_limit_and_timeout`
call per submitted item, gathered with `return_exceptions=True`. -/
def firstRound {α : Type} (cfg : PEConfig) (tasks : List (UnitOfWork α)) :
    List (GatherOutcome α) :=
  tasks.enum.map (fun p =>
    match p.2.gatherException with
    | some e => .exn e
    | none => .ok (executeWithLimitAndTimeout cfg ("task_" ++ toString p.1) (p.2.attempt 0)))

/-- One pass of the `for idx, task, args in retry_tasks` loop inside
`ParallelExecutor._execute_retries`, for retry round `round`
(Python's 0-based `retry_count`): re-runs each queued item, overwrites
`results[idx]` when the retry completed or when this was the last allowed
round, and requeues it otherwise. -/
def runRetryRound {α : Type} (cfg : PEConfig) (round : Nat) :
    List (Nat × UnitOfWork α) → List (ExecutionResult α) →
    List (Nat × UnitOfWork α) × List (ExecutionResult α)
  | [], results => ([], results)
  | (idx, w) :: rest, results =>
    let taskId := "task_" ++ toString idx ++ "_retry_" ++ toString (round + 1)
    let r0 := executeWithLimitAndTimeout cfg taskId (w.attempt (round + 1))
    let r := { r0 with retry_count := round + 1 }
    if r.status = ExecutionStatus.completed then
      runRetryRound cfg round rest (results.set idx r)
    else if round + 1 < cfg.max_retries then
      let next := runRetryRound cfg round rest results
      ((idx, w) :: next.1, next.2)
    else
      runRetryRound cfg round rest (results.set idx r)

/-- `ParallelExecutor._execute_retries`: up to `max_retries` rounds over the
queue of items whose first-round coroutine raised through `gather`. -/
def executeRetries {α : Type} (cfg : PEConfig)
    (queue : List (Nat × UnitOfWork α)) (results : List (ExecutionResult α)) :
    List (ExecutionResult α) :=
  ((List.range cfg.max_retries).foldl
    (fun st round => runRetryRound cfg round st.1 st.2) (queue, results)).2

/-- `ParallelExecutor.execute_parallel`: gather all first-round outcomes,
convert captured exceptions into `FAILED` results in place, queue exactly
the exception-captured items for retry (when retries are enabled), and run
the retry rounds. -/
def executeParallel {α : Type} (cfg : PEConfig) (tasks : List (UnitOfWork α)) :
    List (ExecutionResult α) :=
  let gathered := firstRound cfg tasks
  let processed := gathered.enum.map (fun p =>
    match p.2 with
    | .ok r => r
    | .exn e => { task_id := "task_" ++ toString p.1,
                  status := ExecutionStatus.failed, error := some e })
  let retryQueue :=
    if cfg.enable_retries then
      (tasks.enum.filterMap (fun p =>
        match p.2.gatherException with
        | some _ => some (p.1, p.2)
        | none => none))
    else []
  executeRetries cfg retryQueue processed

end ParallelExec

-- ===========================================================================
-- hierarchical_agent_coordination.py
-- ===========================================================================

namespace Hier

/-- `TaskStatus` from hierarchical_agent_coordination.py.  Note that this
enum has no timeout member. -/
inductive TaskStatus where
  | pending
  | running
  | completed
  | failed
  | cancelled
deriving DecidableEq, Repr

/-- `AgentResponse` from hierarchical_agent_coordination.py (fields the
claims talk about; timing/cost metadata omitted). -/
structure AgentResponse where
  task_id : String := ""
  agent_id : String := ""
  status : TaskStatus
  content : String := ""
  citations : List String := []
  error_message : Option String := none
deriving DecidableEq, Repr

/-- `OrchestratorConfig` from hierarchical_agent_coordination.py (fields
used by the modelled control flow). -/
structure HOConfig where
  num_agents : Nat := 5
  enable_drummer : Bool := true
  enable_camina : Bool := true
  max_concurrent_agents : Nat := 10
  belter_timeout : Nat := 180
deriving DecidableEq, Repr

/-- How one Belter's execution inside
`HierarchicalOrchestrator._execute_belters_parallel.execute_with_limit`
terminates: `agent.execute_task` returns a response (`BelterAgent` catches
its own `Exception`s, so the response may itself carry `failed`),
`asyncio.wait_for` raises `asyncio.TimeoutError`, or an exception escapes
the wrapper and is captured by `gather(..., return_exceptions=True)`. -/
inductive BelterRun where
  | completes (r : AgentResponse)
  | timesOut
  | escapes (e : String)
deriving DecidableEq, Repr

/-- `True` exactly on the `escapes` constructor. -/
def BelterRun.isEscape : BelterRun → Bool
  | .escapes _ => true
  | _ => false

/-- What `gather` returns for one Belter. -/
inductive BelterOutcome where
  | ok (r : AgentResponse)
  | exn (e : String)
deriving DecidableEq, Repr

/-- `execute_with_limit` from `_execute_belters_parallel`: a timeout is
caught and recorded as a `TaskStatus.FAILED` response (with a timeout error
message); an escaping exception reaches `gather`. -/
def belterExecuteWithLimit (cfg : HOConfig) (run : BelterRun) : BelterOutcome :=
  match run with
  | .completes r => .ok r
  | .timesOut =>
      .ok { status := .failed, content := "",
            error_message :=
              some ("Timeout after " ++ toString cfg.belter_timeout ++ "s") }
  | .escapes e => .exn e

/-- The result-processing loop of `_execute_belters_parallel`: an outcome
that is an exception is logged and *not appended* — it is dropped from the
returned list. -/
def processBelterResults (rs : List BelterOutcome) : List AgentResponse :=
  rs.filterMap (fun r =>
    match r with
    | .ok a => some a
    | .exn _ => none)

/-- `HierarchicalOrchestrator._execute_belters_parallel`. -/
def executeBeltersParallel (cfg : HOConfig) (runs : List BelterRun) :
    List AgentResponse :=
  processBelterResults (runs.map (belterExecuteWithLimit cfg))

/-- The grouping `[belter_results[i:i+5] for i in range(0, len(belter_results), 5)]`
from `_execute_drummers_parallel`. -/
def chunk5 {α : Type} : List α → List (List α)
  | [] => []
  | x :: rest => ((x :: rest).take 5) :: chunk5 ((x :: rest).drop 5)
termination_by xs => xs.length
decreasing_by
  simp only [List.length_drop, List.length_cons]
  omega

/-- `DrummerAgent.execute_task` (simulated synthesis): an empty batch makes
the method raise `ValueError`, which its own handler converts into a
`FAILED` response; any non-empty batch is synthesized — citations are
aggregated from the `COMPLETED` inputs only (`list(set(...))` is modelled
as order-preserving deduplication; no claim depends on the set order) and
the response status is `COMPLETED`, regardless of whether any input was
`COMPLETED`. -/
def drummerExecuteTask (agentId taskId : String)
    (belter_responses : List AgentResponse) : AgentResponse :=
  if belter_responses.isEmpty then
    { task_id := taskId, agent_id := agentId, status := .failed, content := "",
      error_message := some "No Belter responses provided for synthesis" }
  else
    let all_citations := belter_responses.foldl
      (fun acc r => if r.status = TaskStatus.completed then acc ++ r.citations else acc) []
    { task_id := taskId, agent_id := agentId, status := .completed,
      content := "Drummer synthesis of " ++ toString belter_responses.length
        ++ " Belter responses",
      citations := all_citations.dedup }

/-- `CaminaAgent.execute_task` (simulated executive synthesis): same shape
as the Drummer — `FAILED` exactly on an empty input list. -/
def caminaExecuteTask (agentId taskId : String)
    (drummer_responses : List AgentResponse) (belter_count : Nat) : AgentResponse :=
  if drummer_responses.isEmpty then
    { task_id := taskId, agent_id := agentId, status := .failed, content := "",
      error_message := some "No Drummer responses provided for final synthesis" }
  else
    let all_citations := drummer_responses.foldl
      (fun acc r => if r.status = TaskStatus.completed then acc ++ r.citations else acc) []
    { task_id := taskId, agent_id := agentId, status := .completed,
      content := "Executive synthesis: " ++ toString drummer_responses.length
        ++ " Drummer units, " ++ toString belter_count ++ " total Belters",
      citations := all_citations.dedup }

/-- Number of Drummer agents created by `_create_agent_swarm`:
`(num_subtasks + 4) // 5` when drummers are enabled, none otherwise. -/
def numDrummers (cfg : HOConfig) (num_subtasks : Nat) : Nat :=
  if cfg.enable_drummer then (num_subtasks + 4) / 5 else 0

/-- The `zip(drummers, belter_groups) ... if group` pairing inside
`_execute_drummers_parallel` (drummers stand for their indices). -/
def drummerPairs (nd : Nat) (belter_results : List AgentResponse) :
    List (Nat × List AgentResponse) :=
  ((List.range nd).zip (chunk5 belter_results)).filter (fun p => !p.2.isEmpty)

/-- `HierarchicalOrchestrator._execute_drummers_parallel`, with the Drummer
implementation passed in (`DrummerAgent` simulated or `RealLLMDrummerAgent`):
one synthesis per paired non-empty group. -/
def executeDrummersParallel (synth : Nat → List AgentResponse → AgentResponse)
    (nd : Nat) (belter_results : List AgentResponse) : List AgentResponse :=
  (drummerPairs nd belter_results).map (fun p => synth p.1 p.2)

/-- The dictionary `HierarchicalOrchestrator.execute_task` returns. -/
structure OrchestrationOutput where
  belter_responses : List AgentResponse
  drummer_responses : List AgentResponse
  camina_response : Option AgentResponse
  total_agents : Nat
deriving DecidableEq, Repr

/-- `HierarchicalOrchestrator.execute_task`: Tier1 in parallel, Tier2 when
drummers are enabled and at least 5 Tier1 results exist, Tier3 when Camina
is enabled and at least 2 Tier2 results exist.  `runs` gives one execution
behaviour per created Belter (so `runs.length = config.num_agents`);
`dsynth`/`csynth` are the Drummer/Camina implementations. -/
def executeTask (cfg : HOConfig) (runs : List BelterRun)
    (dsynth : Nat → List AgentResponse → AgentResponse)
    (csynth : List AgentResponse → List AgentResponse → AgentResponse) :
    OrchestrationOutput :=
  let belter_results := executeBeltersParallel cfg runs
  let drummer_results :=
    if cfg.enable_drummer && decide (5 ≤ belter_results.length) then
      executeDrummersParallel dsynth (numDrummers cfg runs.length) belter_results
    else []
  let camina_result :=
    if cfg.enable_camina && decide (2 ≤ drummer_results.length) then
      some (csynth belter_results drummer_results)
    else none
  { belter_responses := belter_results
    drummer_responses := drummer_results
    camina_response := camina_result
    total_agents := belter_results.length + drummer_results.length
      + (if camina_result.isSome then 1 else 0) }

end Hier

-- ===========================================================================
-- Python `str.strip()` / whitespace trimming, shared by the decomposer's
-- validation step and by `float()`'s literal parsing.
-- ===========================================================================

/-- Python's `str.strip()` on the character list: drop whitespace from both
ends. -/
def stripList (l : List Char) : List Char :=
  ((l.dropWhile Char.isWhitespace).reverse.dropWhile Char.isWhitespace).reverse

/-- Python's `str.strip()`. -/
def pyStrip (s : String) : String := ⟨stripList s.data⟩

-- ===========================================================================
-- phased_workflow_orchestrator.py
-- ===========================================================================

namespace Phased

/-- The phase/overall status strings used by
phased_workflow_orchestrator.py (`PhaseResult.status` /
`OrchestratorResult.status`).  `skipped` appears only in the report
emoji map; `_execute_phase` never produces it. -/
inductive PhaseStatus where
  | success
  | partial_
  | failed
  | skipped
deriving DecidableEq, Repr

/-- The status normalization in `BaseWorkflowOrchestrator._execute_phase`:
the agent's reported status string is mapped to `failed`, `partial` or
(anything else, including "success" and "simulated") `success`. -/
def phaseStatusOf (agentStatus : String) : PhaseStatus :=
  if agentStatus = "failed" then .failed
  else if agentStatus = "partial" then .partial_
  else .success

/-- The overall-status determination block of
`BaseWorkflowOrchestrator.run` (lines 351-358): `success` when every phase
status is `success`; otherwise `partial` unless some phase `failed` and no
phase succeeded, in which case `failed`. -/
def overallStatus (statuses : List PhaseStatus) : PhaseStatus :=
  if statuses.all (fun s => s = .success) then .success
  else if statuses.any (fun s => s = .failed) then
    (if statuses.any (fun s => s = .success) then .partial_ else .failed)
  else .partial_

end Phased

-- ===========================================================================
-- task_decomposition_pattern.py
-- ===========================================================================

namespace Decomp

/-- `DecompositionConfig` from task_decomposition_pattern.py
(`temperature` only parameterizes the LLM call and is omitted). -/
structure DecompositionConfig where
  min_subtasks : Nat := 3
  max_subtasks : Nat := 15
  target_agent_count : Option Nat := none
  enable_padding : Bool := true
  enable_validation : Bool := true
deriving DecidableEq, Repr

/-- The five template prefixes of `TaskDecomposer._template_decompose`
(each is completed with the task text). -/
def baseTemplates : List String :=
  [ "Research and gather relevant information about: "
  , "Analyze key aspects and factors related to: "
  , "Identify challenges and opportunities for: "
  , "Evaluate different approaches and strategies for: "
  , "Synthesize findings and formulate recommendations for: " ]

/-- The template list built inside `_template_decompose` for a task. -/
def templates (task : String) : List String :=
  baseTemplates.map (fun b => b ++ task)

/-- `TaskDecomposer._template_decompose`: the first `min_subtasks`
templates. -/
def templateDecompose (cfg : DecompositionConfig) (task : String) : List String :=
  (templates task).take cfg.min_subtasks

/-- The 15 generic filler prefixes of `TaskDecomposer._get_generic_subtasks`,
indexed modulo 15 (the Python code cycles `templates[i % len(templates)]`). -/
def genericBase : Nat → String
  | 0 => "Conduct supplementary research on: "
  | 1 => "Perform detailed analysis of: "
  | 2 => "Investigate related aspects of: "
  | 3 => "Gather additional perspectives on: "
  | 4 => "Examine supporting evidence for: "
  | 5 => "Research secondary sources about: "
  | 6 => "Analyze contextual factors of: "
  | 7 => "Study comparative examples of: "
  | 8 => "Evaluate different approaches to: "
  | 9 => "Explore implications and consequences of: "
  | 10 => "Review best practices related to: "
  | 11 => "Investigate potential challenges with: "
  | 12 => "Research implementation strategies for: "
  | 13 => "Analyze stakeholder perspectives on: "
  | _ => "Study market/industry context of: "

/-- The i-th filler subtask for a task (cycling the 15-template bank). -/
def genericTemplate (task : String) (i : Nat) : String :=
  genericBase (i % 15) ++ task

/-- `TaskDecomposer._get_generic_subtasks`. -/
def getGenericSubtasks (task : String) (count : Nat) : List String :=
  (List.range count).map (genericTemplate task)

/-- The accumulating loop of `TaskDecomposer._validate_subtasks`: drop
subtasks whose stripped text is shorter than 10 characters, drop exact
duplicates of an already-validated subtask, keep the rest in order. -/
def validateAux (validated : List String) : List String → List String
  | [] => validated
  | s :: rest =>
    if (pyStrip s).length < 10 then validateAux validated rest
    else if s ∈ validated then validateAux validated rest
    else validateAux (validated ++ [s]) rest

/-- `TaskDecomposer._validate_subtasks`. -/
def validateSubtasks (subtasks : List String) : List String :=
  validateAux [] subtasks

/-- `TaskDecomposer._pad_to_target_count` (called only when the target is
set and nonzero): truncate to the target, or append filler subtasks from
the cyclic generic bank up to it. -/
def padToTarget (t : Nat) (task : String) (subtasks : List String) : List String :=
  if t ≤ subtasks.length then subtasks.take t
  else subtasks ++ getGenericSubtasks task (t - subtasks.length)

/-- The outcome of the optional LLM decomposition step: either the parsed
item list of a successful call (`_parse_numbered_list` output — the engine
treats the parsed list as the LLM's contribution, and no claim depends on
the text format it was parsed from), or an exception from the call. -/
inductive LLMOutcome where
  | ok (items : List String)
  | raises (e : String)
deriving DecidableEq, Repr

/-- `TaskDecomposer._llm_decompose`: on success, pad the parsed items with
generic fillers up to `min_subtasks` and truncate to `max_subtasks`; any
exception is caught and the template decomposition is used instead. -/
def llmDecompose (cfg : DecompositionConfig) (task : String) :
    LLMOutcome → List String
  | .raises _ => templateDecompose cfg task
  | .ok items =>
      let items :=
        if items.length < cfg.min_subtasks then
          items ++ getGenericSubtasks task (cfg.min_subtasks - items.length)
        else items
      items.take cfg.max_subtasks

/-- `TaskDecomposition` (the metadata dictionary carries only debug
information). -/
structure TaskDecomposition where
  original_task : String
  subtasks : List String
deriving DecidableEq, Repr

/-- `TaskDecomposer.decompose_task`: LLM or template decomposition,
optional validation, optional padding to `target_agent_count` (the Python
guard `if self.config.enable_padding and self.config.target_agent_count:`
treats `None` and `0` as false). -/
def decomposeTask (cfg : DecompositionConfig) (task : String)
    (llm : Option LLMOutcome) : TaskDecomposition :=
  let subtasks :=
    match llm with
    | some o => llmDecompose cfg task o
    | none => templateDecompose cfg task
  let subtasks := if cfg.enable_validation then validateSubtasks subtasks else subtasks
  let subtasks :=
    match cfg.target_agent_count with
    | some t =>
        if cfg.enable_padding && decide (t ≠ 0) then padToTarget t task subtasks
        else subtasks
    | none => subtasks
  { original_task := task, subtasks := subtasks }

/-- `decompose_task` as a fallible call.  The Python coroutine has no raise
statement and every helper it invokes is total (`_llm_decompose` catches
all exceptions from the provider and falls back to the template path), so
the embedding always returns `ok`; the `Except` wrapper records that the
callers treat it as fallible. -/
def decomposeTaskE (cfg : DecompositionConfig) (task : String)
    (llm : Option LLMOutcome) : Except String TaskDecomposition :=
  .ok (decomposeTask cfg task llm)

end Decomp

-- ===========================================================================
-- multi_agent_data_models.py
-- ===========================================================================

namespace Models

/-- `TaskStatus` from multi_agent_data_models.py. -/
inductive TaskStatus where
  | pending
  | running
  | completed
  | failed
  | cancelled
deriving DecidableEq, Repr

/-- `AgentType` from multi_agent_data_models.py. -/
inductive AgentType where
  | worker
  | synthesizer
  | executive
  | monitor
  | specialized
deriving DecidableEq, Repr

/-- Python values that can sit in a deserialized result dictionary:
`None`, strings, integers, lists (their numeric conversion always fails,
so only their presence matters), or already-constructed enum members
(the `isinstance` branches of `from_dict`). -/
inductive PyVal where
  | vNone
  | vStr (s : String)
  | vInt (n : Int)
  | vList (elems : Nat)
  | vStatus (s : TaskStatus)
  | vAgentType (a : AgentType)
deriving DecidableEq, Repr

/-- `TaskStatus(value)` lookup by enum value string. -/
def statusOfString (s : String) : Option TaskStatus :=
  if s = "pending" then some .pending
  else if s = "running" then some .running
  else if s = "completed" then some .completed
  else if s = "failed" then some .failed
  else if s = "cancelled" then some .cancelled
  else none

/-- `AgentType(value)` lookup by enum value string. -/
def agentTypeOfString (s : String) : Option AgentType :=
  if s = "worker" then some .worker
  else if s = "synthesizer" then some .synthesizer
  else if s = "executive" then some .executive
  else if s = "monitor" then some .monitor
  else if s = "specialized" then some .specialized
  else none

/-- The status branch of `AgentResult.from_dict`: an existing `TaskStatus`
member is kept; otherwise `TaskStatus(value)` is attempted and any
`ValueError` (unknown string, or a non-string value) silently falls back
to `COMPLETED`. -/
def parseStatus (v : PyVal) : TaskStatus :=
  match v with
  | .vStatus s => s
  | .vStr s => (statusOfString s).getD .completed
  | _ => .completed

/-- The agent-type branch of `AgentResult.from_dict`: same shape, falling
back to `WORKER`. -/
def parseAgentType (v : PyVal) : AgentType :=
  match v with
  | .vAgentType a => a
  | .vStr s => (agentTypeOfString s).getD .worker
  | _ => .worker

/-- A simple decimal float literal: optional sign, then digits with at most
one decimal point and at least one digit (surrounding whitespace is
ignored, as `float()` does).  Python's `float()` also accepts exponent and
inf/nan forms; the claims only need that some strings are rejected, and
every string this predicate accepts is accepted by `float()`. -/
def isFloatLit (s : String) : Bool :=
  let cs := stripList s.data
  let cs :=
    match cs with
    | '+' :: rest => rest
    | '-' :: rest => rest
    | _ => cs
  cs.any Char.isDigit
    && cs.all (fun c => c.isDigit || c = '.')
    && decide ((cs.filter (fun c => c = '.')).length ≤ 1)

/-- Whether `float(value)` succeeds: numbers convert, strings convert when
they are float literals, and `None`, lists and enum members raise
`TypeError`. -/
def floatConvertible : PyVal → Bool
  | .vInt _ => true
  | .vStr s => isFloatLit s
  | _ => false

/-- The dictionary handed to `AgentResult.from_dict`: one optional raw
value per key it reads (`metadata`/`citations` are normalized with total
`or`-defaults and are not involved in any claim). -/
structure AgentResultDict where
  agent_id : Option PyVal := none
  agent_type : Option PyVal := none
  subtask_id : Option PyVal := none
  content : Option PyVal := none
  status : Option PyVal := none
  execution_time : Option PyVal := none
  cost : Option PyVal := none
  error : Option PyVal := none
deriving DecidableEq, Repr

/-- The `AgentResult` dataclass as `from_dict` builds it.  The dataclass
performs no type validation, so the string-keyed fields keep whatever raw
value the dictionary held; `execution_time`/`cost` record the value passed
through `float()` (its numeric float semantics are outside the claims —
only whether the conversion raises matters). -/
structure AgentResult where
  agent_id : PyVal
  agent_type : AgentType
  subtask_id : PyVal
  content : PyVal
  status : TaskStatus
  execution_time : PyVal
  cost : PyVal
  error : Option PyVal
deriving DecidableEq, Repr

/-- `AgentResult.from_dict`: `None` input raises `ValueError`; enum fields
are coerced with silent fallbacks; `float(...)` on `execution_time` and
`cost` raises for non-numeric values and that exception propagates to the
caller. -/
def fromDict : Option AgentResultDict → Except String AgentResult
  | none => .error "AgentResult.from_dict requires data"
  | some d =>
    if floatConvertible (d.execution_time.getD (.vInt 0)) = false then
      .error "could not convert execution_time to float"
    else if floatConvertible (d.cost.getD (.vInt 0)) = false then
      .error "could not convert cost to float"
    else
      .ok { agent_id := d.agent_id.getD (.vStr "")
            agent_type := parseAgentType (d.agent_type.getD (.vStr "worker"))
            subtask_id := d.subtask_id.getD (.vStr "")
            content := d.content.getD (.vStr "")
            status := parseStatus (d.status.getD (.vStr "completed"))
            execution_time := d.execution_time.getD (.vInt 0)
            cost := d.cost.getD (.vInt 0)
            error := d.error }

end Models

-- ===========================================================================
-- cascade.py (RealLLM agents)
-- ===========================================================================

namespace Cascade

/-- `RealLLMDrummerAgent.execute_task` from cascade.py: the body joins the
contents of the `COMPLETED` responses into the prompt and calls the LLM
(`chat` is that call's outcome); it returns a `COMPLETED` response carrying
the LLM text on success, and only an exception in the body (an LLM failure)
produces `FAILED` — there is no check on the batch being empty or on it
containing any `COMPLETED` input. -/
def realDrummerExecuteTask (chat : Except String String)
    (agentId taskId : String) (_batch : List Hier.AgentResponse) :
    Hier.AgentResponse :=
  match chat with
  | .ok content =>
      { task_id := taskId, agent_id := agentId, status := .completed,
        content := content }
  | .error e =>
      { task_id := taskId, agent_id := agentId, status := .failed,
        content := "", error_message := some e }

end Cascade

-- ===========================================================================
-- Helper lemmas
-- ===========================================================================

namespace ParallelExec

/-- A retry round never changes how many results there are: it only
overwrites positions with `List.set`. -/
theorem runRetryRound_snd_length {α : Type} (cfg : PEConfig) (round : Nat)
    (queue : List (Nat × UnitOfWork α)) (results : List (ExecutionResult α)) :
    (runRetryRound cfg round queue results).2.length = results.length := by
  induction queue generalizing results with
  | nil => rfl
  | cons p rest ih =>
    obtain ⟨idx, w⟩ := p
    simp only [runRetryRound]
    split
    · exact (ih _).trans (by simp)
    · split
      · exact ih _
      · exact (ih _).trans (by simp)

/-- Folding the retry rounds keeps the result-list length. -/
theorem foldRetry_snd_length {α : Type} (cfg : PEConfig) (l : List Nat)
    (queue : List (Nat × UnitOfWork α)) (results : List (ExecutionResult α)) :
    ((l.foldl (fun st round => runRetryRound cfg round st.1 st.2)
        (queue, results)).2).length = results.length := by
  induction l generalizing queue results with
  | nil => rfl
  | cons a rest ih =>
    simp only [List.foldl_cons]
    exact (ih (runRetryRound cfg a queue results).1
      (runRetryRound cfg a queue results).2).trans
      (runRetryRound_snd_length cfg a queue results)

/-- `_execute_retries` keeps the result-list length. -/
theorem executeRetries_length {α : Type} (cfg : PEConfig)
    (queue : List (Nat × UnitOfWork α)) (results : List (ExecutionResult α)) :
    (executeRetries cfg queue results).length = results.length :=
  foldRetry_snd_length cfg _ queue results

/-- An empty retry queue makes `_execute_retries` the identity. -/
theorem executeRetries_nil {α : Type} (cfg : PEConfig)
    (results : List (ExecutionResult α)) :
    executeRetries cfg ([] : List (Nat × UnitOfWork α)) results = results := by
  unfold executeRetries
  generalize List.range cfg.max_retries = l
  induction l with
  | nil => rfl
  | cons a rest ih => simpa [List.foldl_cons, runRetryRound] using ih

/-- `execute_parallel` returns one result per submitted item. -/
theorem executeParallel_length {α : Type} (cfg : PEConfig)
    (tasks : List (UnitOfWork α)) :
    (executeParallel cfg tasks).length = tasks.length := by
  unfold executeParallel firstRound
  refine (executeRetries_length cfg _ _).trans ?_
  simp [List.enum_length]

end ParallelExec

namespace Hier

/-- The Tier1 result list keeps exactly the runs whose exception did not
escape to `gather`. -/
theorem executeBeltersParallel_length (cfg : HOConfig) (runs : List BelterRun) :
    (executeBeltersParallel cfg runs).length
      = (runs.filter (fun r => !r.isEscape)).length := by
  induction runs with
  | nil => rfl
  | cons r rest ih =>
    cases r <;>
      simpa [executeBeltersParallel, processBelterResults, belterExecuteWithLimit,
        BelterRun.isEscape, List.filterMap_cons, List.filter_cons] using ih

end Hier

-- ===========================================================================
-- C1
-- ===========================================================================

/-- C1 counterexample.  The claim says a failed, timed-out or
exception-raising item "is never dropped" by the Tier1 parallel execution,
so that `len(tier1_results) == len(subtasks)`.  But the result-processing
loop of `HierarchicalOrchestrator._execute_belters_parallel` appends only
non-exception outcomes: for one submitted Belter whose exception is
captured by `gather(..., return_exceptions=True)`, the returned list is
empty, so its length (0) differs from the number of submitted items (1). -/
theorem C1_counterexample :
    [Hier.BelterRun.escapes "task cancelled"].length = 1 ∧
    (Hier.executeBeltersParallel {} [Hier.BelterRun.escapes "task cancelled"]).length
      = 0 := by
  constructor <;> rfl

/-- C1 amended: `ParallelExecutor.execute_parallel` always returns exactly
`len(tasks)` results (failures and timeouts are represented in place); the
hierarchical Tier1 executor preserves the count only of the outcomes that
reach it as results — in general `len(tier1_results)` equals the number of
non-escaping runs, and equals `len(subtasks)` exactly when no item's
exception escaped to `gather` (which the per-item handlers make the normal
case). -/
theorem C1_amended {α : Type} (cfg : ParallelExec.PEConfig)
    (tasks : List (ParallelExec.UnitOfWork α)) (cfg2 : Hier.HOConfig)
    (runs runs' : List Hier.BelterRun)
    (h : ∀ r ∈ runs, r.isEscape = false) :
    (ParallelExec.executeParallel cfg tasks).length = tasks.length ∧
    (Hier.executeBeltersParallel cfg2 runs).length = runs.length ∧
    (Hier.executeBeltersParallel cfg2 runs').length
      = (runs'.filter (fun r => !r.isEscape)).length := by
  refine ⟨ParallelExec.executeParallel_length cfg tasks, ?_,
    Hier.executeBeltersParallel_length cfg2 runs'⟩
  rw [Hier.executeBeltersParallel_length cfg2 runs]
  congr 1
  exact List.filter_eq_self.mpr (fun r hr => by simp [h r hr])

/-- C1 witness: the amended statement evaluated at one completing Belter
and one always-completing unit of work. -/
theorem C1_witness :
    (∀ r ∈ [Hier.BelterRun.completes { status := Hier.TaskStatus.completed }],
        r.isEscape = false) ∧
    ((ParallelExec.executeParallel (α := Unit) {}
        [{ attempt := fun _ => .completed () }]).length = 1 ∧
      (Hier.executeBeltersParallel {}
        [Hier.BelterRun.completes { status := Hier.TaskStatus.completed }]).length = 1 ∧
      (Hier.executeBeltersParallel {}
        [Hier.BelterRun.escapes "boom"]).length
        = ([Hier.BelterRun.escapes "boom"].filter (fun r => !r.isEscape)).length) := by
  refine ⟨by decide, ?_⟩
  exact C1_amended {} [{ attempt := fun _ => .completed () }] {}
    [Hier.BelterRun.completes { status := Hier.TaskStatus.completed }]
    [Hier.BelterRun.escapes "boom"] (by decide)

-- ===========================================================================
-- C2
-- ===========================================================================

/-- C2 counterexample.  The claim says the overall status is `Failed` when
zero executed results are Completed.  A single phase whose agent reported
"partial" yields a phase-result list with zero `success` entries, yet
`BaseWorkflowOrchestrator.run` computes overall status `partial` (the
`failed` branch additionally requires some phase status to be `failed`). -/
theorem C2_counterexample :
    (Phased.phaseStatusOf "partial" = Phased.PhaseStatus.partial_) ∧
    ([Phased.PhaseStatus.partial_].any (fun s => s = .success) = false) ∧
    Phased.overallStatus [Phased.PhaseStatus.partial_] ≠ Phased.PhaseStatus.failed ∧
    Phased.overallStatus [Phased.PhaseStatus.partial_] = Phased.PhaseStatus.partial_ := by
  refine ⟨rfl, rfl, ?_, rfl⟩
  decide

/-- C2 amended: the overall status is `success` iff every phase status is
`success`; it is `failed` iff some phase status is `failed` and none is
`success`; and it is `partial` iff not all phases succeeded and either some
phase succeeded or no phase failed (so a run with zero successes but no
outright failure — e.g. all-`partial` phases — is `partial`, not
`failed`). -/
theorem C2_amended (ss : List Phased.PhaseStatus) :
    (Phased.overallStatus ss = .success ↔ ss.all (fun s => s = .success) = true) ∧
    (Phased.overallStatus ss = .failed ↔
      (ss.any (fun s => s = .failed) = true ∧ ss.any (fun s => s = .success) = false)) ∧
    (Phased.overallStatus ss = .partial_ ↔
      (ss.all (fun s => s = .success) = false ∧
        (ss.any (fun s => s = .success) = true ∨ ss.any (fun s => s = .failed) = false))) := by
  unfold Phased.overallStatus
  split_ifs with h1 h2 h3 <;> simp_all [List.all_eq_true, List.any_eq_true]
  · exact ⟨h1, fun hf => absurd (h1 _ hf) (by decide)⟩
  · exact fun x hx hxs => h3 (hxs ▸ hx)
  · exact Or.inr (fun x hx hxf => h2 (hxf ▸ hx))

-- ===========================================================================
-- C3
-- ===========================================================================

/-- C3: the claim (and the spec, and `ParallelExecutor`'s own docstring
"Automatic retry for failed tasks") says a unit of work that errors or
times out on every attempt is retried exactly `max_retries` times and
recorded with `retry_count == max_retries`.  In the code,
`_execute_with_limit_and_timeout` catches the error/timeout and returns an
`ExecutionResult`, and `execute_parallel` queues a retry only for items
whose gathered outcome `isinstance(result, Exception)` — so an
always-erroring unit of work is recorded as `FAILED` with
`retry_count == 0` and zero retries (first conjunct, the failing input).
The retry machinery behaves as specified only for items whose first-round
coroutine raised through `gather` (second conjunct): there the final
result carries `retry_count = max_retries = 2`. -/
theorem C3_theorem :
    (ParallelExec.executeParallel (α := Unit) {}
        [{ attempt := fun _ => .raised "boom" }] =
      [{ task_id := "task_0", status := .failed, error := some "boom",
         retry_count := 0 }]) ∧
    (ParallelExec.executeParallel (α := Unit) {}
        [{ attempt := fun _ => .raised "boom", gatherException := some "cancelled" }] =
      [{ task_id := "task_0_retry_2", status := .failed, error := some "boom",
         retry_count := 2 }]) := by
  constructor <;> rfl

-- ===========================================================================
-- C4
-- ===========================================================================

/-- C4 counterexample.  The claim says an item exceeding its per-task
timeout is recorded with status `TimedOut`.  In
`HierarchicalOrchestrator._execute_belters_parallel` the
`asyncio.TimeoutError` handler records the item with `TaskStatus.FAILED`
(that enum has no timeout member) and only a "Timeout after ...s" error
message — the recorded status equals the one used for ordinary failures. -/
theorem C4_counterexample :
    Hier.executeBeltersParallel {} [Hier.BelterRun.timesOut] =
      [{ status := Hier.TaskStatus.failed,
         error_message := some "Timeout after 180s" }] ∧
    ({ status := Hier.TaskStatus.failed,
       error_message := some "Timeout after 180s" } : Hier.AgentResponse).status
      = Hier.TaskStatus.failed := by
  constructor <;> rfl

/-- C4 amended: a timed-out item never propagates its timeout exception to
the caller of the batch run, but the recorded status differs by executor:
`ParallelExecutor` records `ExecutionStatus.TIMEOUT` (with no retry, since
only gather-captured exceptions are queued), while the hierarchical Tier1
executor catches the timeout and records `TaskStatus.FAILED` with a
timeout error message. -/
theorem C4_amended (cfg : ParallelExec.PEConfig) (cfg2 : Hier.HOConfig)
    (w : ParallelExec.UnitOfWork Unit)
    (h1 : w.gatherException = none) (h2 : w.attempt 0 = .timedOut) :
    ParallelExec.executeParallel cfg [w] =
      [{ task_id := "task_0", status := .timeout,
         error := some ("Timeout after " ++ toString cfg.timeout_seconds ++ "s") }] ∧
    Hier.belterExecuteWithLimit cfg2 Hier.BelterRun.timesOut =
      .ok { status := .failed, content := "",
            error_message :=
              some ("Timeout after " ++ toString cfg2.belter_timeout ++ "s") } := by
  refine ⟨?_, rfl⟩
  unfold ParallelExec.executeParallel ParallelExec.firstRound
  simp only [List.enum, List.enumFrom, List.map_cons, List.map_nil, h1,
    List.filterMap_cons, List.filterMap_nil, h2]
  rw [ite_self, ParallelExec.executeRetries_nil]
  rfl

/-- C4 witness: the amended statement at a single timing-out unit of work
with the default configurations. -/
theorem C4_witness :
    (({ attempt := fun _ => .timedOut, gatherException := none } :
        ParallelExec.UnitOfWork Unit).gatherException = none) ∧
    (({ attempt := fun _ => .timedOut, gatherException := none } :
        ParallelExec.UnitOfWork Unit).attempt 0 = .timedOut) ∧
    (ParallelExec.executeParallel {}
        [({ attempt := fun _ => .timedOut } : ParallelExec.UnitOfWork Unit)] =
      [{ task_id := "task_0", status := .timeout,
         error := some ("Timeout after " ++ toString (60 : Nat) ++ "s") }] ∧
      Hier.belterExecuteWithLimit {} Hier.BelterRun.timesOut =
        .ok { status := .failed, content := "",
              error_message :=
                some ("Timeout after " ++ toString (180 : Nat) ++ "s") }) := by
  exact ⟨rfl, rfl, C4_amended {} {} { attempt := fun _ => .timedOut } rfl rfl⟩

-- ===========================================================================
-- C5
-- ===========================================================================

namespace Hier

theorem chunk5_nil {α : Type} : chunk5 ([] : List α) = [] := by rw [chunk5]

theorem chunk5_cons {α : Type} (x : α) (rest : List α) :
    chunk5 (x :: rest) = ((x :: rest).take 5) :: chunk5 ((x :: rest).drop 5) := by
  rw [chunk5]

theorem chunk5_eq_nil {α : Type} (xs : List α) : chunk5 xs = [] ↔ xs = [] := by
  cases xs with
  | nil => simp [chunk5_nil]
  | cons x rest => rw [chunk5_cons]; simp

/-- Number of groups: `ceil(N / 5)`, written with the same integer formula
`(N + 4) / 5` the swarm-creation code uses for the Drummer count. -/
theorem chunk5_length {α : Type} (xs : List α) :
    (chunk5 xs).length = (xs.length + 4) / 5 := by
  induction xs using chunk5.induct with
  | case1 => rw [chunk5_nil]; simp
  | case2 x rest ih =>
    rw [chunk5_cons]
    simp only [List.length_cons, List.length_drop] at *
    omega

/-- Every group is non-empty and holds at most 5 results. -/
theorem chunk5_mem {α : Type} (xs : List α) :
    ∀ c ∈ chunk5 xs, c.length ≤ 5 ∧ c ≠ [] := by
  induction xs using chunk5.induct with
  | case1 => intro c hc; simp [chunk5_nil] at hc
  | case2 x rest ih =>
    intro c hc
    rw [chunk5_cons] at hc
    rcases List.mem_cons.mp hc with h | h
    · subst h
      refine ⟨by simp, by simp⟩
    · exact ih c h

/-- Group sizes sum back to the number of results. -/
theorem chunk5_sum {α : Type} (xs : List α) :
    ((chunk5 xs).map List.length).sum = xs.length := by
  induction xs using chunk5.induct with
  | case1 => rw [chunk5_nil]; simp
  | case2 x rest ih =>
    rw [chunk5_cons]
    simp only [List.map_cons, List.sum_cons, List.length_take, List.length_drop,
      List.length_cons] at *
    omega

/-- Every group except possibly the last has size exactly 5. -/
theorem chunk5_dropLast {α : Type} (xs : List α) :
    ∀ c ∈ (chunk5 xs).dropLast, c.length = 5 := by
  induction xs using chunk5.induct with
  | case1 => intro c hc; simp [chunk5_nil] at hc
  | case2 x rest ih =>
    intro c hc
    rw [chunk5_cons] at hc
    by_cases hrest : chunk5 ((x :: rest).drop 5) = []
    · rw [hrest] at hc; simp at hc
    · rw [List.dropLast_cons_of_ne_nil hrest] at hc
      rcases List.mem_cons.mp hc with h | h
      · subst h
        have hd : (x :: rest).drop 5 ≠ [] := by
          intro h0
          exact hrest (by rw [h0, chunk5_nil])
        have h5 : 5 ≤ rest.length := by
          by_contra hlt
          exact hd (List.drop_eq_nil_of_le (by simp; omega))
        simp only [List.length_take, List.length_cons]
        omega
      · exact ih c h

/-- One Tier2 synthesis is launched per paired non-empty group. -/
theorem drummerPairs_length (nd : Nat) (rs : List AgentResponse) :
    (drummerPairs nd rs).length = min nd (chunk5 rs).length := by
  unfold drummerPairs
  rw [List.filter_eq_self.mpr, List.length_zip, List.length_range]
  intro p hp
  obtain ⟨i, g⟩ := p
  have h2 := (List.of_mem_zip hp).2
  have := (chunk5_mem rs g h2).2
  simpa [List.isEmpty_iff] using this

end Hier

/-- C5: partitioning N Tier1 results into batches for Tier2 (`chunk5`
mirrors the slicing loop in `_execute_drummers_parallel`) yields exactly
`(N + 4) / 5 = ceil(N/5)` batches, each non-empty of size at most 5, with
only the last allowed smaller, and with sizes summing to N; and with the
Drummer pool created by `_create_agent_swarm` for any subtask count
`n ≥ N`, exactly one Tier2 synthesis runs per batch. -/
theorem C5_theorem (rs : List Hier.AgentResponse) (n : Nat)
    (synth : Nat → List Hier.AgentResponse → Hier.AgentResponse)
    (h : rs.length ≤ n) :
    (Hier.chunk5 rs).length = (rs.length + 4) / 5 ∧
    (∀ c ∈ Hier.chunk5 rs, c.length ≤ 5 ∧ c ≠ []) ∧
    ((Hier.chunk5 rs).map List.length).sum = rs.length ∧
    (∀ c ∈ (Hier.chunk5 rs).dropLast, c.length = 5) ∧
    (Hier.executeDrummersParallel synth (Hier.numDrummers {} n) rs).length
      = (Hier.chunk5 rs).length := by
  refine ⟨Hier.chunk5_length rs, Hier.chunk5_mem rs, Hier.chunk5_sum rs,
    Hier.chunk5_dropLast rs, ?_⟩
  unfold Hier.executeDrummersParallel
  rw [List.length_map, Hier.drummerPairs_length]
  have hle : (Hier.chunk5 rs).length ≤ Hier.numDrummers {} n := by
    rw [Hier.chunk5_length]
    show (rs.length + 4) / 5 ≤ (n + 4) / 5
    exact Nat.div_le_div_right (by omega)
  exact min_eq_right hle

/-- C5 witness: twelve completed Tier1 results with a pool sized for
twelve subtasks — batches of 5, 5 and 2, and three Tier2 syntheses. -/
theorem C5_witness :
    (List.replicate 12
        ({ status := Hier.TaskStatus.completed } : Hier.AgentResponse)).length ≤ 12 ∧
    ((Hier.chunk5 (List.replicate 12
        ({ status := Hier.TaskStatus.completed } : Hier.AgentResponse))).length
      = ((List.replicate 12
        ({ status := Hier.TaskStatus.completed } : Hier.AgentResponse)).length + 4) / 5 ∧
      (∀ c ∈ Hier.chunk5 (List.replicate 12
        ({ status := Hier.TaskStatus.completed } : Hier.AgentResponse)),
          c.length ≤ 5 ∧ c ≠ []) ∧
      ((Hier.chunk5 (List.replicate 12
        ({ status := Hier.TaskStatus.completed } : Hier.AgentResponse))).map List.length).sum
        = (List.replicate 12
        ({ status := Hier.TaskStatus.completed } : Hier.AgentResponse)).length ∧
      (∀ c ∈ (Hier.chunk5 (List.replicate 12
        ({ status := Hier.TaskStatus.completed } : Hier.AgentResponse))).dropLast,
          c.length = 5) ∧
      (Hier.executeDrummersParallel
          (fun i g => Hier.drummerExecuteTask ("drummer_" ++ toString (i + 1)) "t" g)
          (Hier.numDrummers {} 12)
          (List.replicate 12
            ({ status := Hier.TaskStatus.completed } : Hier.AgentResponse))).length
        = (Hier.chunk5 (List.replicate 12
            ({ status := Hier.TaskStatus.completed } : Hier.AgentResponse))).length) :=
  ⟨by decide,
    C5_theorem (List.replicate 12 { status := Hier.TaskStatus.completed }) 12
      (fun i g => Hier.drummerExecuteTask ("drummer_" ++ toString (i + 1)) "t" g)
      (by decide)⟩

-- ===========================================================================
-- C6
-- ===========================================================================

/-- C6: with Tier3 enabled, `HierarchicalOrchestrator.execute_task` runs
the Camina executive synthesis iff at least 2 Drummer results exist (the
threshold 2 is hard-coded, matching the default `executive_threshold`);
below the threshold `camina_response` is `None` and the run still returns
its result dictionary normally (the model's `executeTask` is total — the
threshold branch is the only place the executive result is produced). -/
theorem C6_theorem (cfg : Hier.HOConfig) (runs : List Hier.BelterRun)
    (dsynth : Nat → List Hier.AgentResponse → Hier.AgentResponse)
    (csynth : List Hier.AgentResponse → List Hier.AgentResponse → Hier.AgentResponse)
    (h : cfg.enable_camina = true) :
    ((Hier.executeTask cfg runs dsynth csynth).camina_response.isSome = true ↔
      2 ≤ (Hier.executeTask cfg runs dsynth csynth).drummer_responses.length) ∧
    ((Hier.executeTask cfg runs dsynth csynth).drummer_responses.length < 2 →
      (Hier.executeTask cfg runs dsynth csynth).camina_response = none) := by
  unfold Hier.executeTask
  simp only [h, Bool.true_and]
  constructor
  · split <;> rename_i hcond <;> simp_all
  · intro hlt
    split <;> rename_i hcond <;> simp_all

/-- C6 witness: the default configuration with no Belters — zero Drummer
results, so the executive result is absent and the output is still
assembled. -/
theorem C6_witness :
    ({} : Hier.HOConfig).enable_camina = true ∧
    (((Hier.executeTask {} [] (fun i g => Hier.drummerExecuteTask
          ("drummer_" ++ toString (i + 1)) "t" g)
        (fun bs ds => Hier.caminaExecuteTask "camina_1" "t" ds bs.length)).camina_response.isSome
        = true ↔
      2 ≤ (Hier.executeTask {} [] (fun i g => Hier.drummerExecuteTask
          ("drummer_" ++ toString (i + 1)) "t" g)
        (fun bs ds => Hier.caminaExecuteTask "camina_1" "t" ds bs.length)).drummer_responses.length) ∧
      ((Hier.executeTask {} [] (fun i g => Hier.drummerExecuteTask
          ("drummer_" ++ toString (i + 1)) "t" g)
        (fun bs ds => Hier.caminaExecuteTask "camina_1" "t" ds bs.length)).drummer_responses.length < 2 →
        (Hier.executeTask {} [] (fun i g => Hier.drummerExecuteTask
          ("drummer_" ++ toString (i + 1)) "t" g)
        (fun bs ds => Hier.caminaExecuteTask "camina_1" "t" ds bs.length)).camina_response = none)) :=
  ⟨rfl, C6_theorem {} []
    (fun i g => Hier.drummerExecuteTask ("drummer_" ++ toString (i + 1)) "t" g)
    (fun bs ds => Hier.caminaExecuteTask "camina_1" "t" ds bs.length) rfl⟩

-- ===========================================================================
-- C7
-- ===========================================================================

namespace Decomp

theorem length_dropWhile_le {α : Type} (p : α → Bool) (l : List α) :
    (l.dropWhile p).length ≤ l.length := by
  induction l with
  | nil => simp
  | cons x xs ih =>
    rw [List.dropWhile_cons]
    split
    · exact Nat.le_succ_of_le ih
    · exact Nat.le_refl _

/-- Dropping a prefix-scan over an extended list can only leave more
elements than scanning the suffix alone. -/
theorem length_dropWhile_append_ge {α : Type} (p : α → Bool) (a b : List α) :
    (List.dropWhile p b).length ≤ (List.dropWhile p (a ++ b)).length := by
  induction a with
  | nil => simp
  | cons x xs ih =>
    rw [List.cons_append, List.dropWhile_cons]
    split
    · exact ih
    · simp only [List.length_cons, List.length_append]
      have := length_dropWhile_le p b
      omega

/-- If a prefix keeps a non-whitespace core of at least 10 characters,
appending any task text cannot bring the stripped length below 10
(stripping eats whitespace only at the two ends). -/
theorem pyStrip_append_ge (b task : String)
    (hA : (List.dropWhile Char.isWhitespace b.data).isEmpty = false)
    (hB : 10 ≤ (List.dropWhile Char.isWhitespace
        ((List.dropWhile Char.isWhitespace b.data).reverse)).length) :
    10 ≤ (pyStrip (b ++ task)).length := by
  show 10 ≤ (stripList (b ++ task).data).length
  rw [String.data_append]
  unfold stripList
  rw [List.dropWhile_append, if_neg (by simp [hA]), List.length_reverse,
    List.reverse_append]
  exact le_trans hB (length_dropWhile_append_ge _ _ _)

/-- A string whose stripped form has at least 10 characters is not empty. -/
theorem ne_empty_of_strip (s : String) (h : 10 ≤ (pyStrip s).length) :
    s ≠ "" := by
  intro he
  subst he
  exact absurd h (by decide)

/-- Appending a fixed suffix is injective on strings. -/
theorem append_right_cancel_str {a b task : String} (h : a ++ task = b ++ task) :
    a = b := by
  apply String.ext
  have hd : a.data ++ task.data = b.data ++ task.data := by
    have := congrArg String.data h
    rwa [String.data_append, String.data_append] at this
  exact List.append_cancel_right hd

/-- The five worker templates: non-whitespace cores of length ≥ 10,
pairwise distinct. -/
theorem baseTemplates_facts :
    ∀ b ∈ baseTemplates,
      (List.dropWhile Char.isWhitespace b.data).isEmpty = false ∧
      10 ≤ (List.dropWhile Char.isWhitespace
        ((List.dropWhile Char.isWhitespace b.data).reverse)).length := by
  decide

theorem baseTemplates_nodup : baseTemplates.Nodup := by decide

/-- The fifteen filler templates: non-whitespace cores of length ≥ 10. -/
theorem genericBase_facts :
    ∀ j ∈ List.range 15,
      (List.dropWhile Char.isWhitespace (genericBase j).data).isEmpty = false ∧
      10 ≤ (List.dropWhile Char.isWhitespace
        ((List.dropWhile Char.isWhitespace (genericBase j).data).reverse)).length := by
  decide

theorem genericBase_inj :
    ∀ i ∈ List.range 15, ∀ j ∈ List.range 15,
      genericBase i = genericBase j → i = j := by
  decide

theorem base_generic_disjoint :
    ∀ b ∈ baseTemplates, ∀ j ∈ List.range 15, b ≠ genericBase j := by
  decide

theorem templates_nodup (task : String) : (templates task).Nodup := by
  unfold templates
  refine List.Nodup.map_on ?_ baseTemplates_nodup
  intro x _ y _ hxy
  exact append_right_cancel_str hxy

theorem templates_strip (task : String) :
    ∀ s ∈ templates task, 10 ≤ (pyStrip s).length := by
  intro s hs
  obtain ⟨b, hb, rfl⟩ := List.mem_map.mp hs
  have h := baseTemplates_facts b hb
  exact pyStrip_append_ge b task h.1 h.2

theorem templateDecompose_strip (cfg : DecompositionConfig) (task : String) :
    ∀ s ∈ templateDecompose cfg task, 10 ≤ (pyStrip s).length :=
  fun s hs => templates_strip task s (List.mem_of_mem_take hs)

theorem templateDecompose_nodup (cfg : DecompositionConfig) (task : String) :
    (templateDecompose cfg task).Nodup :=
  (List.take_sublist _ _).nodup (templates_nodup task)

theorem templateDecompose_length (cfg : DecompositionConfig) (task : String) :
    (templateDecompose cfg task).length = min cfg.min_subtasks 5 := by
  unfold templateDecompose templates baseTemplates
  simp [List.length_take]

/-- On a list whose members all pass the length check and that has no
duplicates, the validation loop is the identity (it appends every element
to the accumulator unchanged). -/
theorem validateAux_clean (l : List String) :
    ∀ acc : List String, (∀ s ∈ l, 10 ≤ (pyStrip s).length) →
      (acc ++ l).Nodup → validateAux acc l = acc ++ l := by
  induction l with
  | nil => intro acc _ _; simp [validateAux]
  | cons s rest ih =>
    intro acc hlen hnd
    have h10 : ¬ (pyStrip s).length < 10 := by
      have := hlen s (by simp)
      omega
    have hmem : s ∉ acc := by
      intro hsa
      have hdisj := (List.nodup_append.mp hnd).2.2
      exact hdisj hsa (by simp)
    unfold validateAux
    rw [if_neg h10, if_neg hmem, ih (acc ++ [s])]
    · simp
    · exact fun t ht => hlen t (by simp [ht])
    · simpa using hnd

theorem validateSubtasks_clean (l : List String)
    (hlen : ∀ s ∈ l, 10 ≤ (pyStrip s).length) (hnd : l.Nodup) :
    validateSubtasks l = l := by
  unfold validateSubtasks
  simpa using validateAux_clean l [] hlen (by simpa using hnd)

theorem templateDecompose_validated (cfg : DecompositionConfig) (task : String) :
    validateSubtasks (templateDecompose cfg task) = templateDecompose cfg task :=
  validateSubtasks_clean _ (templateDecompose_strip cfg task)
    (templateDecompose_nodup cfg task)

theorem getGenericSubtasks_length (task : String) (k : Nat) :
    (getGenericSubtasks task k).length = k := by
  simp [getGenericSubtasks]

theorem getGenericSubtasks_strip (task : String) (k : Nat) :
    ∀ s ∈ getGenericSubtasks task k, 10 ≤ (pyStrip s).length := by
  intro s hs
  obtain ⟨i, _, rfl⟩ := List.mem_map.mp hs
  unfold genericTemplate
  have hmem : i % 15 ∈ List.range 15 :=
    List.mem_range.mpr (Nat.mod_lt _ (by decide))
  have h := genericBase_facts _ hmem
  exact pyStrip_append_ge _ task h.1 h.2

theorem getGenericSubtasks_nodup (task : String) (k : Nat) (hk : k ≤ 15) :
    (getGenericSubtasks task k).Nodup := by
  unfold getGenericSubtasks
  refine List.Nodup.map_on ?_ (List.nodup_range k)
  intro x hx y hy hxy
  unfold genericTemplate at hxy
  have hx15 : x < 15 := lt_of_lt_of_le (List.mem_range.mp hx) hk
  have hy15 : y < 15 := lt_of_lt_of_le (List.mem_range.mp hy) hk
  have heq : genericBase (x % 15) = genericBase (y % 15) :=
    append_right_cancel_str hxy
  rw [Nat.mod_eq_of_lt hx15, Nat.mod_eq_of_lt hy15] at heq
  exact genericBase_inj x (List.mem_range.mpr hx15) y (List.mem_range.mpr hy15) heq

theorem templateDecompose_fillers_disjoint (cfg : DecompositionConfig)
    (task : String) (k : Nat) :
    (templateDecompose cfg task).Disjoint (getGenericSubtasks task k) := by
  intro s hs hs'
  have hsb : s ∈ templates task := List.mem_of_mem_take hs
  obtain ⟨b, hb, rfl⟩ := List.mem_map.mp hsb
  obtain ⟨i, _, heq⟩ := List.mem_map.mp hs'
  unfold genericTemplate at heq
  have hbase : genericBase (i % 15) = b := append_right_cancel_str heq
  have hmem : i % 15 ∈ List.range 15 :=
    List.mem_range.mpr (Nat.mod_lt _ (by decide))
  exact base_generic_disjoint b hb (i % 15) hmem hbase.symm

end Decomp

/-- C7 counterexample.  The claim says the returned subtasks have "no two
equal" for every target in `[min_subtasks, max_subtasks]`.  With
`min_subtasks = 3`, `max_subtasks = 20` and `target_agent_count = 19`
(inside the allowed range), the template path validates 3 subtasks and
must pad 16 fillers: the cyclic 15-template bank wraps around, so the
filler for index 15 repeats the filler for index 0 and the returned
19-element list contains a duplicate. -/
theorem C7_counterexample :
    (({ min_subtasks := 3, max_subtasks := 20, target_agent_count := some 19 } :
        Decomp.DecompositionConfig).min_subtasks ≤ 19 ∧
      19 ≤ ({ min_subtasks := 3, max_subtasks := 20, target_agent_count := some 19 } :
        Decomp.DecompositionConfig).max_subtasks) ∧
    (Decomp.decomposeTask
        { min_subtasks := 3, max_subtasks := 20, target_agent_count := some 19 }
        "climate policy" none).subtasks.length = 19 ∧
    ¬ (Decomp.decomposeTask
        { min_subtasks := 3, max_subtasks := 20, target_agent_count := some 19 }
        "climate policy" none).subtasks.Nodup := by
  refine ⟨⟨by decide, by decide⟩, by decide, by decide⟩

/-- C7 amended: for every `target_agent_count` T within
`[min_subtasks, max_subtasks]`, the template-path `Decompose` returns
exactly `min(max(T, min_subtasks), max_subtasks) = T` subtasks, each
non-empty; they are pairwise distinct provided the number of padded
fillers, `T - min(min_subtasks, 5)`, does not exceed the 15-template bank
(always true for the reference defaults 3–15) — beyond that the cyclic
bank repeats and duplicates appear (see the counterexample); and padding
appends after — and truncation takes a prefix of — the already-validated
subtasks, never altering their content. -/
theorem C7_theorem (cfg : Decomp.DecompositionConfig) (task : String) (T : Nat)
    (hv : cfg.enable_validation = true) (hp : cfg.enable_padding = true)
    (htgt : cfg.target_agent_count = some T)
    (h1 : cfg.min_subtasks ≤ T) (h2 : T ≤ cfg.max_subtasks)
    (h3 : T ≤ min cfg.min_subtasks 5 + 15) :
    (Decomp.decomposeTask cfg task none).subtasks.length
      = min (max T cfg.min_subtasks) cfg.max_subtasks ∧
    (∀ s ∈ (Decomp.decomposeTask cfg task none).subtasks, s ≠ "") ∧
    (Decomp.decomposeTask cfg task none).subtasks.Nodup ∧
    ((Decomp.templateDecompose cfg task).length ≤ T →
      Decomp.templateDecompose cfg task <+:
        (Decomp.decomposeTask cfg task none).subtasks) ∧
    (T ≤ (Decomp.templateDecompose cfg task).length →
      (Decomp.decomposeTask cfg task none).subtasks
        = (Decomp.templateDecompose cfg task).take T) := by
  have hval := Decomp.templateDecompose_validated cfg task
  have hlen₁ := Decomp.templateDecompose_length cfg task
  have hMinMax : min (max T cfg.min_subtasks) cfg.max_subtasks = T := by omega
  have hd : (Decomp.decomposeTask cfg task none).subtasks
      = (if cfg.enable_padding && decide (T ≠ 0)
         then Decomp.padToTarget T task (Decomp.templateDecompose cfg task)
         else Decomp.templateDecompose cfg task) := by
    unfold Decomp.decomposeTask
    simp [htgt, hv, hval]
  by_cases hT0 : T = 0
  · subst hT0
    have hm0 : cfg.min_subtasks = 0 := by omega
    have hnil : Decomp.templateDecompose cfg task = [] := by
      have := hlen₁
      rw [hm0] at this
      simpa using List.length_eq_zero.mp (by simpa using this)
    rw [hd]
    simp [hnil]
    omega
  · rw [hd, if_pos (by simp [hp, hT0])]
    unfold Decomp.padToTarget
    by_cases hTle : T ≤ (Decomp.templateDecompose cfg task).length
    · rw [if_pos hTle, hMinMax]
      have hTm : T = (Decomp.templateDecompose cfg task).length := by omega
      refine ⟨by simp [List.length_take]; omega, ?_, ?_, ?_, fun _ => rfl⟩
      · intro s hs
        exact Decomp.ne_empty_of_strip s
          (Decomp.templateDecompose_strip cfg task s (List.mem_of_mem_take hs))
      · exact (List.take_sublist _ _).nodup (Decomp.templateDecompose_nodup cfg task)
      · intro _
        rw [hTm, List.take_length]
    · rw [if_neg hTle, hMinMax]
      have hklen := Decomp.getGenericSubtasks_length task
        (T - (Decomp.templateDecompose cfg task).length)
      have hk15 : T - (Decomp.templateDecompose cfg task).length ≤ 15 := by omega
      refine ⟨?_, ?_, ?_, fun _ => List.prefix_append _ _, fun hc => absurd hc hTle⟩
      · rw [List.length_append, hklen]
        omega
      · intro s hs
        rcases List.mem_append.mp hs with h | h
        · exact Decomp.ne_empty_of_strip s
            (Decomp.templateDecompose_strip cfg task s h)
        · exact Decomp.ne_empty_of_strip s
            (Decomp.getGenericSubtasks_strip task _ s h)
      · rw [List.nodup_append]
        exact ⟨Decomp.templateDecompose_nodup cfg task,
          Decomp.getGenericSubtasks_nodup task _ hk15,
          Decomp.templateDecompose_fillers_disjoint cfg task _⟩

/-- C7 witness: the default bounds (3–15) with target 5 on a concrete
task — exactly 5 non-empty pairwise-distinct subtasks, the 3 validated
templates kept as a prefix. -/
theorem C7_witness :
    (({ target_agent_count := some 5 } : Decomp.DecompositionConfig).enable_validation
        = true ∧
      ({ target_agent_count := some 5 } : Decomp.DecompositionConfig).enable_padding
        = true ∧
      ({ target_agent_count := some 5 } : Decomp.DecompositionConfig).min_subtasks ≤ 5 ∧
      5 ≤ ({ target_agent_count := some 5 } : Decomp.DecompositionConfig).max_subtasks) ∧
    ((Decomp.decomposeTask { target_agent_count := some 5 } "ocean currents"
        none).subtasks.length
      = min (max 5 ({ target_agent_count := some 5 } :
          Decomp.DecompositionConfig).min_subtasks)
          ({ target_agent_count := some 5 } : Decomp.DecompositionConfig).max_subtasks ∧
      (∀ s ∈ (Decomp.decomposeTask { target_agent_count := some 5 } "ocean currents"
          none).subtasks, s ≠ "") ∧
      (Decomp.decomposeTask { target_agent_count := some 5 } "ocean currents"
          none).subtasks.Nodup ∧
      ((Decomp.templateDecompose { target_agent_count := some 5 } "ocean currents").length ≤ 5 →
        Decomp.templateDecompose { target_agent_count := some 5 } "ocean currents" <+:
          (Decomp.decomposeTask { target_agent_count := some 5 } "ocean currents"
            none).subtasks) ∧
      (5 ≤ (Decomp.templateDecompose { target_agent_count := some 5 }
          "ocean currents").length →
        (Decomp.decomposeTask { target_agent_count := some 5 } "ocean currents"
            none).subtasks
          = (Decomp.templateDecompose { target_agent_count := some 5 }
              "ocean currents").take 5)) :=
  ⟨⟨rfl, rfl, by decide, by decide⟩,
    C7_theorem { target_agent_count := some 5 } "ocean currents" 5 rfl rfl rfl
      (by decide) (by decide) (by decide)⟩

-- ===========================================================================
-- C8
-- ===========================================================================

/-- C8 counterexample.  The claim says `Decompose` returns an error iff
the task string is empty.  `TaskDecomposer.decompose_task` contains no
emptiness check and no raise: on the empty task it happily returns the
three template subtasks (built from the default `min_subtasks = 3`), so
the empty task does not produce an error. -/
theorem C8_counterexample :
    ("" : String) = "" ∧
    (Decomp.decomposeTaskE {} "" none).isOk = true ∧
    (Decomp.decomposeTask {} "" none).subtasks.length = 3 := by
  refine ⟨rfl, rfl, ?_⟩
  decide

/-- C8 amended: `Decompose` never returns an error — for every task string
(the empty one included) and every LLM availability/outcome it returns a
subtask list without raising, and when the intelligent decomposition
source is absent or raises, the result is exactly the template-based
decomposition (the failing-LLM run equals the no-LLM run). -/
theorem C8_amended (cfg : Decomp.DecompositionConfig) (task e : String)
    (llm : Option Decomp.LLMOutcome) :
    (Decomp.decomposeTaskE cfg task llm).isOk = true ∧
    Decomp.decomposeTask cfg task (some (.raises e))
      = Decomp.decomposeTask cfg task none := by
  exact ⟨rfl, rfl⟩

-- ===========================================================================
-- C9
-- ===========================================================================

/-- C9 counterexample.  The claim says a Tier2 synthesis whose input batch
contains zero Completed results produces a `Failed` result and performs no
synthesis.  `DrummerAgent.execute_task` only guards against an *empty*
batch: a batch consisting of one `FAILED` Tier1 response (zero Completed
inputs) is synthesized normally and the Drummer result has status
`COMPLETED`. -/
theorem C9_counterexample :
    ([({ status := Hier.TaskStatus.failed } : Hier.AgentResponse)].all
        (fun r => !(r.status = Hier.TaskStatus.completed)) = true) ∧
    (Hier.drummerExecuteTask "drummer_1" "t1"
        [{ status := Hier.TaskStatus.failed }]).status
      = Hier.TaskStatus.completed := by
  constructor <;> rfl

/-- C9 amended: the simulated Drummer produces `Failed` exactly when its
input batch is empty (the `ValueError` raised on an empty batch is caught
and recorded), and `Completed` for every non-empty batch regardless of how
many inputs completed; the cascade.py `RealLLMDrummerAgent` produces
`Failed` exactly when its LLM call fails, with no check on the inputs at
all. -/
theorem C9_amended (a t : String) (batch : List Hier.AgentResponse)
    (chat : Except String String) :
    ((Hier.drummerExecuteTask a t batch).status = Hier.TaskStatus.failed ↔
      batch = []) ∧
    ((Hier.drummerExecuteTask a t batch).status = Hier.TaskStatus.completed ↔
      batch ≠ []) ∧
    ((Cascade.realDrummerExecuteTask chat a t batch).status
        = Hier.TaskStatus.failed ↔ ∃ e, chat = .error e) := by
  refine ⟨?_, ?_, ?_⟩
  · unfold Hier.drummerExecuteTask
    split <;> rename_i hcond <;> simp_all [List.isEmpty_iff]
  · unfold Hier.drummerExecuteTask
    split <;> rename_i hcond <;> simp_all [List.isEmpty_iff]
  · unfold Cascade.realDrummerExecuteTask
    cases chat <;> simp

-- ===========================================================================
-- C10
-- ===========================================================================

/-- C10 counterexample.  The claim says `AgentResult.from_dict` raises only
when the input is `None`.  A (non-`None`) dictionary whose
`execution_time` entry is the string "not a number" makes
`float(data.get("execution_time", 0.0))` raise `ValueError`, so
deserialization of that malformed record fails. -/
theorem C10_counterexample :
    (some ({ execution_time := some (Models.PyVal.vStr "not a number") } :
        Models.AgentResultDict) ≠ (none : Option Models.AgentResultDict)) ∧
    (Models.fromDict
        (some { execution_time := some (Models.PyVal.vStr "not a number") })).isOk
      = false := by
  constructor
  · intro h; cases h
  · rfl

/-- C10 amended: `from_dict` raises on `None` input and also whenever the
`execution_time` or `cost` entry fails `float()` conversion; on every
input where both convert, it succeeds, and an unrecognized status string
is silently coerced to `COMPLETED` (and an unrecognized agent-type string
to `WORKER`) — so a malformed *status* never fails deserialization and is
masked as `Completed`. -/
theorem C10_amended (d : Models.AgentResultDict) (s : String)
    (hs : Models.statusOfString s = none) (ha : Models.agentTypeOfString s = none) :
    (Models.fromDict none).isOk = false ∧
    ((Models.fromDict (some d)).isOk =
      (Models.floatConvertible (d.execution_time.getD (.vInt 0))
        && Models.floatConvertible (d.cost.getD (.vInt 0)))) ∧
    Models.parseStatus (.vStr s) = Models.TaskStatus.completed ∧
    Models.parseAgentType (.vStr s) = Models.AgentType.worker ∧
    (∀ r, Models.fromDict (some { d with status := some (.vStr s) }) = .ok r →
      r.status = Models.TaskStatus.completed) := by
  refine ⟨rfl, ?_, ?_, ?_, ?_⟩
  · simp only [Models.fromDict]
    cases hE : Models.floatConvertible (d.execution_time.getD (.vInt 0)) <;>
      cases hC : Models.floatConvertible (d.cost.getD (.vInt 0)) <;>
        simp [hE, hC, Except.isOk, Except.toBool]
  · simp [Models.parseStatus, hs]
  · simp [Models.parseAgentType, ha]
  · intro r hr
    simp only [Models.fromDict] at hr
    split at hr
    · exact absurd hr (by simp)
    · split at hr
      · exact absurd hr (by simp)
      · injection hr with h
        rw [← h]
        simp [Models.parseStatus, hs]

/-- C10 witness: the amended statement at the empty dictionary and the
unrecognized status string "exploded". -/
theorem C10_witness :
    Models.statusOfString "exploded" = none ∧
    Models.agentTypeOfString "exploded" = none ∧
    ((Models.fromDict none).isOk = false ∧
      ((Models.fromDict (some {})).isOk =
        (Models.floatConvertible (Models.PyVal.vInt 0)
          && Models.floatConvertible (Models.PyVal.vInt 0))) ∧
      Models.parseStatus (.vStr "exploded") = Models.TaskStatus.completed ∧
      Models.parseAgentType (.vStr "exploded") = Models.AgentType.worker ∧
      (∀ r, Models.fromDict (some { status := some (.vStr "exploded") }) = .ok r →
        r.status = Models.TaskStatus.completed)) := by
  refine ⟨by decide, by decide, ?_⟩
  have h := C10_amended {} "exploded" (by decide) (by decide)
  simpa using h

end GeepersSkills
